import Mathlib

/-
Verification of the cloud-adaptive vegetation-index orchestration core of the
agrisa_be satellite-data service.

The definitions below are a shallow embedding of the Python sources:
  app/services/google_earth_service.py   (strategy selection, NDVI pipelines)
  app/services/gee_boundary_detection.py (boundary confidence scoring)
  app/utils/gee_batch_helpers.py         (batch statistics, NDVI interpretation)
  app/utils/async_helpers.py             (gather_with_limit)

Remote Google Earth Engine computations (band math, statistics reduction,
thumbnail rendering, geodesic area) are opaque remote procedure calls in the
source; they are modelled as environment-supplied data: each candidate image
record carries the values the remote platform would return for it, and
explicitly-passed outcome functions say which remote per-image units raise.
Python floats are modelled as exact rationals; all numeric literals involved
(30.0, 0.8, 0.3, 10.0, the NDVI breakpoints) are exactly representable and the
comparisons at stake are not affected by binary rounding.  asyncio.gather is
modelled by its contract: one result slot per awaitable, in input order,
independent of completion order.
-/

namespace Agrisa

/-- Python round(x, ndigits) helper: round half to even at the integer level. -/
def roundHalfEven (x : ℚ) : ℤ :=
  let f := Int.floor x
  let r := x - f
  if r < 1/2 then f
  else if 1/2 < r then f + 1
  else if f % 2 = 0 then f else f + 1

/-- Python round(x, ndigits) on a rational value. -/
def pyRound (ndigits : Nat) (x : ℚ) : ℚ :=
  (roundHalfEven (x * 10 ^ ndigits) : ℚ) / 10 ^ ndigits

/-! ### Cloud-adaptive vegetation-index selection
`google_earth_service.py`, `get_farm_thumbnails` (lines 576-1125). -/

/-- Line 729: `use_sar_backup = force_sar_backup or cloud_cover >= 30.0`. -/
def use_sar_backup (force_sar_backup : Bool) (cloud_cover : ℚ) : Bool :=
  force_sar_backup || decide (cloud_cover ≥ 30.0)

/-- The `selected_index` field of the `vegetation_index_strategy` block
(lines 1075-1077): `"RVI (SAR)" if use_sar_backup else "NDVI (Optical)"`. -/
def selected_index (force_sar_backup : Bool) (cloud_cover : ℚ) : String :=
  if use_sar_backup force_sar_backup cloud_cover then "RVI (SAR)" else "NDVI (Optical)"

/-- The vegetation-index branch of `get_farm_thumbnails` (lines 796-877):
the optical (NDVI) branch runs when `use_sar_backup` is false; otherwise the
radar branch counts Sentinel-1 scenes and raises
`ValueError("No Sentinel-1 SAR images found for date range")` when none exist
(lines 876-877); the surrounding handler re-raises, so the error reaches the
caller and no thumbnail is produced.  The result string records which index
recipe produced the `vegetation_index` thumbnail. -/
def vegetation_index_thumbnail (force_sar_backup : Bool) (cloud_cover : ℚ)
    (sar_count : Nat) : Except String String :=
  if use_sar_backup force_sar_backup cloud_cover = false then
    Except.ok "NDVI"
  else if sar_count = 0 then
    Except.error "No Sentinel-1 SAR images found for date range"
  else
    Except.ok "RVI"

/-! ### NDVI health interpretation
`gee_batch_helpers.py`, `interpret_ndvi_health` (lines 212-231). -/

/-- Translation of `interpret_ndvi_health`. -/
def interpret_ndvi_health (mean_ndvi : ℚ) : String :=
  if mean_ndvi > 0.6 then "Very healthy vegetation"
  else if mean_ndvi > 0.4 then "Healthy vegetation"
  else if mean_ndvi > 0.2 then "Moderate vegetation"
  else if mean_ndvi > 0 then "Sparse vegetation"
  else "No vegetation / Water / Bare soil"

/-! ### Boundary-detection confidence score
`gee_boundary_detection.py`, `detect_farm_boundary_from_point`
(lines 246-255).  The source comment above these lines reads
`Confidence calculation (0-1 scale)`. -/

/-- Line 248: `ndvi_confidence = min(mean_ndvi / 0.8, 1.0)`. -/
def ndvi_confidence (mean_ndvi : ℚ) : ℚ := min (mean_ndvi / 0.8) 1.0

/-- Line 249: `uniformity_confidence = max(1.0 - (std_ndvi / 0.3), 0)`. -/
def uniformity_confidence (std_ndvi : ℚ) : ℚ := max (1.0 - std_ndvi / 0.3) 0

/-- Line 250: `size_confidence = min(area_hectares / 10.0, 1.0)`. -/
def size_confidence (area_hectares : ℚ) : ℚ := min (area_hectares / 10.0) 1.0

/-- Lines 251-255: the weighted combination produced by the code. -/
def confidence_score (mean_ndvi std_ndvi area_hectares : ℚ) : ℚ :=
  ndvi_confidence mean_ndvi * 0.5
    + uniformity_confidence std_ndvi * 0.3
    + size_confidence area_hectares * 0.2

/-- clamp(x, lo, hi) as used by the specification text. -/
def clamp (x lo hi : ℚ) : ℚ := max lo (min x hi)

/-- Modelled from the spec: the fully clamped confidence formula of section 4.6,
`0.5 * clamp(mean/0.8, 0, 1) + 0.3 * clamp(1 - std/0.3, 0, 1)
 + 0.2 * clamp(area/10.0, 0, 1)`; stated for comparison with the code's
`confidence_score`, which omits the lower clamps. -/
def confidence_score_spec (mean_ndvi std_ndvi area_hectares : ℚ) : ℚ :=
  0.5 * clamp (mean_ndvi / 0.8) 0 1
    + 0.3 * clamp (1 - std_ndvi / 0.3) 0 1
    + 0.2 * clamp (area_hectares / 10.0) 0 1

/-! ### Bounded gather
`async_helpers.py`, `gather_with_limit` (lines 113-144).  A coroutine's
eventual outcome is modelled as a value of `Except ε α`; `asyncio.gather` is
modelled by its contract: one result slot per awaitable, in input order,
regardless of completion order.  Without `return_exceptions` the gather
surfaces an exception raised by any of its tasks (the model picks the first in
input order as the representative); with it, every slot carries its own
outcome. -/

/-- Model of one `asyncio.gather(*batch, return_exceptions=...)` call. -/
def gather {ε α : Type} (return_exceptions : Bool) (coros : List (Except ε α)) :
    Except ε (List (Except ε α)) :=
  if return_exceptions then Except.ok coros
  else
    match coros.findSome? (fun c => match c with
      | Except.error e => some e
      | Except.ok _ => none) with
    | some e => Except.error e
    | none => Except.ok coros

/-- The batches visited by `for i in range(0, len(coros), limit)` with a
positive step: `coros[i : i + limit]` for each visited index. -/
def to_batches {α : Type} (limit : Nat) : List α → List (List α)
  | [] => []
  | x :: xs =>
      if _h : limit = 0 then []
      else (x :: xs).take limit :: to_batches limit ((x :: xs).drop limit)
termination_by l => l.length
decreasing_by simp [List.length_drop]; omega

/-- Errors a `gather_with_limit` call can raise: an exception propagated out
of one of its `asyncio.gather` calls, or the `ValueError` CPython's `range`
raises for a zero step. -/
inductive GatherError (ε : Type) where
  | task (e : ε)
  | rangeStepZero
deriving DecidableEq, Repr

/-- The chunked loop body of `gather_with_limit` (lines 138-144): gather each
batch in turn, extending `results`; an exception aborts the loop. -/
def gather_batches {ε α : Type} (return_exceptions : Bool) :
    List (List (Except ε α)) → Except (GatherError ε) (List (Except ε α))
  | [] => Except.ok []
  | b :: bs =>
      match gather return_exceptions b with
      | Except.error e => Except.error (GatherError.task e)
      | Except.ok r =>
          match gather_batches return_exceptions bs with
          | Except.error e => Except.error e
          | Except.ok rest => Except.ok (r ++ rest)

/-- Translation of `gather_with_limit` (lines 113-144).  `limit` is a Python
int or None.  When `limit is None or limit >= len(coros)` everything runs in
one gather; otherwise the coroutines are chunked by `range(0, len(coros),
limit)`, which for a negative step visits no index (the call returns `[]`)
and for a zero step raises `ValueError`. -/
def gather_with_limit {ε α : Type} (coros : List (Except ε α)) (limit : Option Int)
    (return_exceptions : Bool) : Except (GatherError ε) (List (Except ε α)) :=
  match limit with
  | none =>
      match gather return_exceptions coros with
      | Except.error e => Except.error (GatherError.task e)
      | Except.ok r => Except.ok r
  | some l =>
      if l ≥ (coros.length : Int) then
        match gather return_exceptions coros with
        | Except.error e => Except.error (GatherError.task e)
        | Except.ok r => Except.ok r
      else if l = 0 then Except.error GatherError.rangeStepZero
      else if l < 0 then Except.ok []
      else gather_batches return_exceptions (to_batches l.toNat coros)

/-- Boolean success test for an outcome slot. -/
def slot_ok {ε α : Type} : Except ε α → Bool
  | Except.ok _ => true
  | Except.error _ => false

/-! ### Batch statistics retrieval
`gee_batch_helpers.py` (lines 22-91 and 160-187).  A FeatureCollection is a
list of features; resolving it (`getInfo`) is the single blocking network
round trip, counted explicitly so that claims about the number of resolve
calls can be stated. -/

/-- One feature of the server-side statistics collection: a properties
dictionary mapping statistic names to values. -/
structure Feature where
  properties : List (String × ℚ)
deriving DecidableEq, Repr

/-- The dictionary shape `getInfo` returns for a FeatureCollection. -/
structure FCInfo where
  features : List Feature
deriving DecidableEq, Repr

/-- Model of `stats_collection.getInfo()`: returns the resolved features and
counts one issued blocking resolve call. -/
def fc_getInfo (fc : List Feature) : FCInfo × Nat :=
  ({ features := fc }, 1)

/-- Python dict `.get(key, default)` on a properties dictionary. -/
def dict_get (d : List (String × ℚ)) (key : String) (default : ℚ) : ℚ :=
  match d.find? (fun p => p.1 == key) with
  | some p => p.2
  | none => default

/-- Translation of `batch_retrieve_statistics` (lines 160-187): one
`getInfo()` call, then one properties dictionary per returned feature.  The
second component counts the resolve calls the function issues. -/
def batch_retrieve_statistics (stats_collection : List Feature) :
    List (List (String × ℚ)) × Nat :=
  let all_stats := fc_getInfo stats_collection
  ((all_stats.1.features.map Feature.properties), all_stats.2)

/-! ### The NDVI pipelines
`google_earth_service.py`, `get_ndvi_data` (lines 1473-1616, parallel path)
and `get_ndvi_data_batched` (lines 1127-1471, batch path).  An
`ImageInfo` is one feature of the resolved, cloud-sorted, length-capped
candidate collection, carrying the values the remote platform returns for
that scene. -/

/-- One candidate scene together with the remote results for it. -/
structure ImageInfo where
  image_id : String
  product_id : String
  cloud_cover : ℚ
  mean_ndvi : ℚ
  thumbnail_url : String
  download_url : String
deriving DecidableEq, Repr

/-- One assembled per-image record (the fields the claims are about). -/
structure ImageData where
  image_index : Nat
  image_id : String
  product_id : String
  cloud_cover : ℚ
  mean_ndvi : ℚ
  vegetation_health : String
  thumbnail_url : String
  download_url : String
deriving DecidableEq, Repr

/-- The `summary` block of an NDVI response. -/
structure Summary where
  total_images : Nat
  images_processed : Nat
deriving DecidableEq, Repr

/-- The `area_info.area.value` field (`none` models JSON null). -/
structure AreaInfo where
  area_value : Option ℚ
deriving DecidableEq, Repr

/-- An NDVI response (the fields the claims are about). -/
structure NdviResponse where
  summary : Summary
  area_info : AreaInfo
  images : List ImageData
deriving DecidableEq, Repr

/-- Lines 1439 and 1583: `round(area_hectares, 4) if area_hectares else None`.
The condition is Python float truthiness, so an area of exactly 0 maps to
None just as a failed area call (`area_hectares = None`) does. -/
def area_value (area_hectares : Option ℚ) : Option ℚ :=
  match area_hectares with
  | some a => if a ≠ 0 then some (pyRound 4 a) else none
  | none => none

/-- `_process_single_ndvi_image` (lines 27-270): build the record for index
`idx`; `image_index := idx`.  The trailing `except` catches any exception
raised by the unit's remote calls and returns None; `unit_ok` says whether
this unit's remote calls all succeed.  The inlined vegetation-health chain
(lines 139-148) is literally `interpret_ndvi_health`. -/
def process_single_ndvi_image (idx : Nat) (info : ImageInfo) (unit_ok : Bool) :
    Option ImageData :=
  if unit_ok then
    some { image_index := idx
           image_id := info.image_id
           product_id := info.product_id
           cloud_cover := info.cloud_cover
           mean_ndvi := info.mean_ndvi
           vegetation_health := interpret_ndvi_health info.mean_ndvi
           thumbnail_url := info.thumbnail_url
           download_url := info.download_url }
  else none

/-- The `enumerate` loop of `get_ndvi_data` (lines 1538-1552) together with
the order-preserving result collection of `gather_with_limit`: one slot per
candidate, in candidate order (`unitOk i` = the unit for index i succeeds). -/
def process_all_ndvi_images (unitOk : Nat → Bool) :
    Nat → List ImageInfo → List (Option ImageData)
  | _, [] => []
  | idx, info :: rest =>
      process_single_ndvi_image idx info (unitOk idx) ::
        process_all_ndvi_images unitOk (idx + 1) rest

/-- Translation of `get_ndvi_data` (parallel path, lines 1473-1616):
zero candidates raise; otherwise every unit runs, None results are filtered
out, and the summary counts both totals.  `image_count` (a `size().getInfo`
call in the source) and the resolved feature list come from the same remote
collection, so both are modelled by `candidates`.  `areaResult` is the
outcome of the geodesic-area call (`none` = it raised; the try/except turns
that into a null area). -/
def get_ndvi_data (candidates : List ImageInfo) (unitOk : Nat → Bool)
    (areaResult : Option ℚ) : Except String NdviResponse :=
  let image_count := candidates.length
  if image_count = 0 then
    Except.error "No images found. Try increasing max_cloud_cover or extending date range."
  else
    let all_images_data := (process_all_ndvi_images unitOk 0 candidates).filterMap id
    Except.ok
      { summary := { total_images := image_count
                     images_processed := all_images_data.length }
        area_info := { area_value := area_value areaResult }
        images := all_images_data }

/-- The images of a pipeline result (empty when the call raised). -/
def response_images : Except String NdviResponse → List ImageData
  | Except.ok r => r.images
  | Except.error _ => []

/-- The `summary.total_images` of a pipeline result (0 when the call raised). -/
def response_total : Except String NdviResponse → Nat
  | Except.ok r => r.summary.total_images
  | Except.error _ => 0

/-! ### The batched pipeline -/

/-- The dictionary `generate_single_image_outputs` returns (lines 1268-1272). -/
structure Outputs where
  idx : Nat
  thumbnail_url : String
  download_url : String
deriving DecidableEq, Repr

/-- `generate_single_image_outputs` (lines 1228-1272): thumbnail and download
URL for one image.  Unlike `_process_single_ndvi_image` it has no internal
try/except: `fail = some msg` models the unit raising `msg`. -/
def generate_single_image_outputs (idx : Nat) (info : ImageInfo)
    (fail : Option String) : Except String Outputs :=
  match fail with
  | some msg => Except.error msg
  | none => Except.ok { idx := idx
                        thumbnail_url := info.thumbnail_url
                        download_url := info.download_url }

/-- The task list built at lines 1275-1280: one output unit per candidate, in
candidate order. -/
def output_units (outFail : Nat → Option String) :
    Nat → List ImageInfo → List (Except String Outputs)
  | _, [] => []
  | idx, info :: rest =>
      generate_single_image_outputs idx info (outFail idx) ::
        output_units outFail (idx + 1) rest

/-- `create_ndvi_batch_processor` (gee_batch_helpers.py lines 22-91): the
server-side map computing each image's NDVI statistics; modelled by the
statistics record each candidate carries (the band math itself runs on the
remote platform and is out of scope). -/
def create_ndvi_batch_processor (candidates : List ImageInfo) : List Feature :=
  candidates.map (fun info => { properties := [("NDVI_mean", info.mean_ndvi)] })

/-- The combine loop of `get_ndvi_data_batched` (lines 1289-1413): for each
candidate index look up its batch statistics and its parallel outputs and
assemble the record with `image_index := idx`; the per-index try/except turns
a failed lookup into `continue`. -/
def combine_batched (stats : List (List (String × ℚ))) (outputs : List Outputs) :
    Nat → List ImageInfo → List ImageData
  | _, [] => []
  | idx, info :: rest =>
      match stats[idx]?, outputs[idx]? with
      | some st, some out =>
          { image_index := idx
            image_id := info.image_id
            product_id := info.product_id
            cloud_cover := info.cloud_cover
            mean_ndvi := dict_get st "NDVI_mean" 0
            vegetation_health := interpret_ndvi_health (dict_get st "NDVI_mean" 0)
            thumbnail_url := out.thumbnail_url
            download_url := out.download_url } ::
            combine_batched stats outputs (idx + 1) rest
      | _, _ => combine_batched stats outputs (idx + 1) rest

/-- Translation of `get_ndvi_data_batched` (lines 1127-1471): zero candidates
raise before any batch work; otherwise the statistics for all images are
resolved with the single batch call, the per-image output units run under
`gather_with_limit(*tasks, limit=10)` — with the default
`return_exceptions=False`, so one raising unit propagates out of the method
(the outer handler re-raises) — and the combine loop assembles the records.
The second component counts the batch-statistics resolve calls issued. -/
def get_ndvi_data_batched (candidates : List ImageInfo)
    (outFail : Nat → Option String) (areaResult : Option ℚ) :
    Except String NdviResponse × Nat :=
  let image_count := candidates.length
  if image_count = 0 then
    (Except.error "No images found. Try increasing max_cloud_cover or extending date range.", 0)
  else
    let batch := batch_retrieve_statistics (create_ndvi_batch_processor candidates)
    let tasks := output_units outFail 0 candidates
    match gather_with_limit tasks (some 10) false with
    | Except.error (GatherError.task e) => (Except.error e, batch.2)
    | Except.error GatherError.rangeStepZero =>
        (Except.error "range() arg 3 must not be zero", batch.2)
    | Except.ok slots =>
        let outputs_list := slots.filterMap Except.toOption
        let all_images_data := combine_batched batch.1 outputs_list 0 candidates
        (Except.ok
          { summary := { total_images := image_count
                         images_processed := all_images_data.length }
            area_info := { area_value := area_value areaResult }
            images := all_images_data }, batch.2)

/-! ### Concrete inputs used by counterexamples and witnesses -/

/-- A candidate scene with 5% cloud cover. -/
def demoImage0 : ImageInfo :=
  { image_id := "COPERNICUS/S2_SR_HARMONIZED/A"
    product_id := "S2A_MSIL2A_20240101T031141_N0510_R075_T48PXS_X"
    cloud_cover := 5
    mean_ndvi := 1/2
    thumbnail_url := "thumb0"
    download_url := "down0" }

/-- A candidate scene with 10% cloud cover. -/
def demoImage1 : ImageInfo :=
  { image_id := "COPERNICUS/S2_SR_HARMONIZED/B"
    product_id := "S2A_MSIL2A_20240111T031141_N0510_R075_T48PXS_X"
    cloud_cover := 10
    mean_ndvi := 1/4
    thumbnail_url := "thumb1"
    download_url := "down1" }

/-- A failure pattern for the batched output units: the unit for image 0
raises, every other unit succeeds. -/
def demoOutFail : Nat → Option String :=
  fun i => if i = 0 then some "Earth Engine API error: malformed product id" else none

end Agrisa

namespace Agrisa

/-! ## Claim theorems -/

/-- C1: for every cloud-cover percentage c and override flag f, the strategy
selector of `get_farm_thumbnails` chooses the radar (SAR RVI) strategy iff
f is true or c >= 30.0, and the optical (NDVI) strategy iff f is false and
c < 30.0; in particular c = 30.0 with f false selects radar, and f true with
c = 2.0 selects radar. -/
theorem C1_select_strategy (c : ℚ) (f : Bool) :
    (selected_index f c = "RVI (SAR)" ↔ (f = true ∨ c ≥ 30.0)) ∧
    (selected_index f c = "NDVI (Optical)" ↔ (f = false ∧ c < 30.0)) ∧
    selected_index false 30.0 = "RVI (SAR)" ∧
    selected_index true 2.0 = "RVI (SAR)" := by
  have hsel : ∀ f' c', selected_index f' c' = "RVI (SAR)" ↔
      use_sar_backup f' c' = true := by
    intro f' c'
    unfold selected_index
    by_cases h : use_sar_backup f' c' = true
    · simp [h]
    · simp [h]
  have hback : ∀ f' c', use_sar_backup f' c' = true ↔ (f' = true ∨ c' ≥ 30.0) := by
    intro f' c'
    unfold use_sar_backup
    cases f' <;> simp
  have hsel2 : ∀ f' c', selected_index f' c' = "NDVI (Optical)" ↔
      use_sar_backup f' c' = false := by
    intro f' c'
    unfold selected_index
    by_cases h : use_sar_backup f' c' = true
    · simp [h]
    · simp [h]
  refine ⟨(hsel f c).trans (hback f c), ?_, ?_, ?_⟩
  · refine (hsel2 f c).trans ?_
    rw [← Bool.not_eq_true, hback f c]
    cases f <;> simp
  · rw [hsel, hback]
    right; norm_num
  · rw [hsel, hback]
    left; rfl

/-- C4 (code bug): the point-mode boundary confidence is claimed to lie in
[0,1], but the code's `ndvi_confidence = min(mean/0.8, 1.0)` has no lower
clamp, so a negative measured mean NDVI (e.g. over water) drives the score
negative: at mean = -0.8, stdDev = 0.3, area = 0 ha the code yields -0.5. -/
theorem C4_confidence_negative :
    confidence_score (-0.8) 0.3 0 = -(1/2) ∧ confidence_score (-0.8) 0.3 0 < 0 := by
  constructor <;>
    norm_num [confidence_score, ndvi_confidence, uniformity_confidence, size_confidence]

/-- C5 counterexample: the code's confidence differs from the spec's fully
clamped formula at mean NDVI = -0.8 (stdDev = 0, area = 0): the code yields
-0.2 while the clamped formula yields 0.3. -/
theorem C5_counterexample :
    confidence_score (-0.8) 0 0 ≠ confidence_score_spec (-0.8) 0 0 := by
  norm_num [confidence_score, confidence_score_spec, ndvi_confidence,
    uniformity_confidence, size_confidence, clamp]

/-- C5 (amended): for nonnegative measured mean NDVI, stdDev and area — the
only inputs on which the claim survives — the code's confidence equals the
clamped formula 0.5*clamp(m/0.8,0,1) + 0.3*clamp(1-s/0.3,0,1)
+ 0.2*clamp(a/10,0,1); and the two instances named by the claim hold exactly:
confidence(0.8, 0, 10) = 1 and confidence(0, 0.3, 0) = 0. -/
theorem C5_confidence_formula (m s a : ℚ) (hm : 0 ≤ m) (hs : 0 ≤ s) (ha : 0 ≤ a) :
    confidence_score m s a = confidence_score_spec m s a ∧
    confidence_score 0.8 0 10 = 1 ∧
    confidence_score 0 0.3 0 = 0 := by
  refine ⟨?_, ?_, ?_⟩
  · unfold confidence_score confidence_score_spec ndvi_confidence
      uniformity_confidence size_confidence clamp
    have hs3 : (0 : ℚ) ≤ s / 0.3 := by positivity
    have e1 : max 0 (min (m / 0.8) 1) = min (m / 0.8) 1.0 := by
      rw [max_eq_right (le_min (by positivity) zero_le_one)]
      norm_num
    have e2 : max 0 (min (1 - s / 0.3) 1) = max (1.0 - s / 0.3) 0 := by
      rw [min_eq_left (by linarith), max_comm]
      norm_num
    have e3 : max 0 (min (a / 10.0) 1) = min (a / 10.0) 1.0 := by
      rw [max_eq_right (le_min (by positivity) zero_le_one)]
      norm_num
    rw [e1, e2, e3]
    ring
  · norm_num [confidence_score, ndvi_confidence, uniformity_confidence,
      size_confidence]
  · norm_num [confidence_score, ndvi_confidence, uniformity_confidence,
      size_confidence]

/-- C5 witness: the amended equality applied at the concrete nonnegative
input (0, 0, 0). -/
theorem C5_confidence_formula_witness :
    confidence_score 0 0 0 = confidence_score_spec 0 0 0 ∧
    confidence_score 0.8 0 10 = 1 ∧
    confidence_score 0 0.3 0 = 0 :=
  C5_confidence_formula 0 0 0 (le_refl 0) (le_refl 0) (le_refl 0)

/-- C8: `interpret_ndvi_health` maps mean 0.65 to the very-healthy category,
mean 0.05 to the sparse category, mean -0.1 to the no-vegetation category; and
the sparse category is exactly the interval 0 < mean <= 0.2 (exclusive lower,
inclusive upper bound). -/
theorem C8_interpret_ndvi_health :
    interpret_ndvi_health 0.65 = "Very healthy vegetation" ∧
    interpret_ndvi_health 0.05 = "Sparse vegetation" ∧
    interpret_ndvi_health (-0.1) = "No vegetation / Water / Bare soil" ∧
    ∀ m : ℚ, (interpret_ndvi_health m = "Sparse vegetation" ↔ 0 < m ∧ m ≤ 0.2) := by
  refine ⟨by norm_num [interpret_ndvi_health], by norm_num [interpret_ndvi_health],
    by norm_num [interpret_ndvi_health], ?_⟩
  intro m
  unfold interpret_ndvi_health
  split_ifs with h1 h2 h3 h4
  · constructor
    · intro h; exact absurd h (by decide)
    · rintro ⟨_, hle⟩; norm_num at h1; linarith
  · constructor
    · intro h; exact absurd h (by decide)
    · rintro ⟨_, hle⟩; norm_num at h2; linarith
  · constructor
    · intro h; exact absurd h (by decide)
    · rintro ⟨_, hle⟩; norm_num at h3; linarith
  · constructor
    · intro _; exact ⟨h4, by norm_num at h3; linarith⟩
    · intro _; rfl
  · constructor
    · intro h; exact absurd h (by decide)
    · rintro ⟨hpos, _⟩; exact absurd hpos (by simpa using h4)

/-- C9: whenever the radar (SAR) fallback is selected and zero radar scenes
exist in the date range, `get_farm_thumbnails` raises the fatal
`No Sentinel-1 SAR images found for date range` error: no further fallback is
attempted and no vegetation-index thumbnail is produced. -/
theorem C9_sar_zero_scenes_fatal (f : Bool) (c : ℚ) (n : Nat)
    (hradar : use_sar_backup f c = true) (hzero : n = 0) :
    vegetation_index_thumbnail f c n =
      Except.error "No Sentinel-1 SAR images found for date range" := by
  unfold vegetation_index_thumbnail
  rw [hradar, hzero]
  simp

/-- C9 witness: forced SAR mode with zero Sentinel-1 scenes fails. -/
theorem C9_sar_zero_scenes_fatal_witness :
    vegetation_index_thumbnail true 2.0 0 =
      Except.error "No Sentinel-1 SAR images found for date range" :=
  C9_sar_zero_scenes_fatal true 2.0 0 rfl rfl

/-! ### Supporting lemmas for the gather model -/

theorem gather_true_eq {ε α : Type} (coros : List (Except ε α)) :
    gather true coros = Except.ok coros := rfl

theorem gather_false_of_all_ok {ε α : Type} (coros : List (Except ε α))
    (h : coros.all slot_ok = true) : gather false coros = Except.ok coros := by
  unfold gather
  have hnone : coros.findSome? (fun c => match c with
      | Except.error e => some e
      | Except.ok _ => none) = none := by
    rw [List.findSome?_eq_none_iff]
    intro x hx
    have hx' := List.all_eq_true.mp h x hx
    cases x with
    | ok a => rfl
    | error e => simp [slot_ok] at hx'
  simp [hnone]

theorem to_batches_nil {α : Type} (k : Nat) : to_batches k ([] : List α) = [] := by
  simp [to_batches]

theorem to_batches_cons {α : Type} (k : Nat) (hk : k ≠ 0) (x : α) (xs : List α) :
    to_batches k (x :: xs) =
      (x :: xs).take k :: to_batches k ((x :: xs).drop k) := by
  rw [to_batches]
  simp [hk]

theorem to_batches_join_aux {α : Type} (k : Nat) (hk : k ≠ 0) :
    ∀ (n : Nat) (l : List α), l.length ≤ n → (to_batches k l).flatten = l := by
  intro n
  induction n with
  | zero =>
      intro l hl
      have : l = [] := List.eq_nil_of_length_eq_zero (Nat.le_zero.mp hl)
      subst this
      simp [to_batches_nil]
  | succ n ih =>
      intro l hl
      cases l with
      | nil => simp [to_batches_nil]
      | cons x xs =>
          have hlen : ((x :: xs).drop k).length ≤ n := by
            simp only [List.length_drop, List.length_cons]
            simp only [List.length_cons] at hl
            omega
          rw [to_batches_cons k hk, List.flatten_cons, ih ((x :: xs).drop k) hlen,
            List.take_append_drop]

theorem to_batches_join {α : Type} (k : Nat) (hk : k ≠ 0) (l : List α) :
    (to_batches k l).flatten = l :=
  to_batches_join_aux k hk l.length l (le_refl _)

theorem gather_batches_true {ε α : Type} :
    ∀ bs : List (List (Except ε α)), gather_batches true bs = Except.ok bs.flatten
  | [] => rfl
  | b :: bs => by
      have ih := gather_batches_true bs
      simp [gather_batches, gather_true_eq, ih, List.flatten_cons]

theorem gather_batches_false_of_all_ok {ε α : Type} :
    ∀ bs : List (List (Except ε α)), bs.flatten.all slot_ok = true →
      gather_batches false bs = Except.ok bs.flatten
  | [], _ => rfl
  | b :: bs, h => by
      rw [List.flatten_cons, List.all_append, Bool.and_eq_true] at h
      have ih := gather_batches_false_of_all_ok bs h.2
      simp [gather_batches, gather_false_of_all_ok b h.1, ih, List.flatten_cons]

/-! ### Supporting lemmas for the NDVI pipelines -/

theorem range'_succ_eq (s n : Nat) : List.range' s (n + 1) = s :: List.range' (s + 1) n :=
  rfl

theorem filterMap_id_cons_some {α : Type} (a : α) (l : List (Option α)) :
    List.filterMap id (some a :: l) = a :: List.filterMap id l := by
  simp [List.filterMap_cons]

theorem filterMap_id_cons_none {α : Type} (l : List (Option α)) :
    List.filterMap id ((none : Option α) :: l) = List.filterMap id l := by
  simp [List.filterMap_cons]

theorem process_all_cons (unitOk : Nat → Bool) (i : Nat) (info : ImageInfo)
    (rest : List ImageInfo) :
    process_all_ndvi_images unitOk i (info :: rest) =
      process_single_ndvi_image i info (unitOk i) ::
        process_all_ndvi_images unitOk (i + 1) rest := rfl

theorem process_all_indices_sublist (unitOk : Nat → Bool) :
    ∀ (l : List ImageInfo) (i : Nat),
      List.Sublist
        (((process_all_ndvi_images unitOk i l).filterMap id).map ImageData.image_index)
        (List.range' i l.length)
  | [], i => by simp [process_all_ndvi_images]
  | info :: rest, i => by
      have ih := process_all_indices_sublist unitOk rest (i + 1)
      rw [List.length_cons, range'_succ_eq, process_all_cons]
      by_cases h : unitOk i = true
      · rw [process_single_ndvi_image, if_pos h, filterMap_id_cons_some, List.map_cons]
        exact List.Sublist.cons₂ _ ih
      · have h' : unitOk i = false := by simpa using h
        rw [process_single_ndvi_image, h', if_neg (by simp), filterMap_id_cons_none]
        exact List.Sublist.cons _ ih

theorem process_all_indices_all_ok (unitOk : Nat → Bool) (hall : ∀ j, unitOk j = true) :
    ∀ (l : List ImageInfo) (i : Nat),
      ((process_all_ndvi_images unitOk i l).filterMap id).map ImageData.image_index =
        List.range' i l.length
  | [], i => by simp [process_all_ndvi_images]
  | info :: rest, i => by
      have ih := process_all_indices_all_ok unitOk hall rest (i + 1)
      rw [List.length_cons, range'_succ_eq, process_all_cons,
        process_single_ndvi_image, if_pos (hall i), filterMap_id_cons_some,
        List.map_cons, ih]

theorem process_all_length (unitOk : Nat → Bool) :
    ∀ (l : List ImageInfo) (i : Nat),
      (process_all_ndvi_images unitOk i l).length = l.length
  | [], _ => rfl
  | _ :: rest, i => by
      rw [process_all_cons, List.length_cons, List.length_cons,
        process_all_length unitOk rest (i + 1)]

theorem process_all_survivor_count (unitOk : Nat → Bool) :
    ∀ (l : List ImageInfo) (i : Nat),
      ((process_all_ndvi_images unitOk i l).filterMap id).length =
        ((List.range' i l.length).filter (fun j => unitOk j)).length
  | [], i => by simp [process_all_ndvi_images]
  | info :: rest, i => by
      have ih := process_all_survivor_count unitOk rest (i + 1)
      rw [List.length_cons, range'_succ_eq, List.filter_cons, process_all_cons]
      by_cases h : unitOk i = true
      · rw [process_single_ndvi_image, if_pos h, filterMap_id_cons_some,
          List.length_cons, ih]
        simp [h]
      · have h' : unitOk i = false := by simpa using h
        rw [process_single_ndvi_image, h', if_neg (by simp), filterMap_id_cons_none, ih]
        simp [h']

/-! ### Remaining claim theorems -/

/-- C2 counterexample: with two candidates whose unit for index 0 fails while
the unit for index 1 succeeds, `get_ndvi_data` returns one record whose
`image_index` is 1, so the returned indices are not the gap-free run 0..k-1
claimed for every success/failure pattern. -/
theorem C2_counterexample :
    ((response_images (get_ndvi_data [demoImage0, demoImage1] (fun i => i != 0) none)).map
        ImageData.image_index = [1]) ∧
    ((response_images (get_ndvi_data [demoImage0, demoImage1] (fun i => i != 0) none)).map
        ImageData.image_index ≠
      List.range (response_images
        (get_ndvi_data [demoImage0, demoImage1] (fun i => i != 0) none)).length) := by
  have h : (response_images (get_ndvi_data [demoImage0, demoImage1] (fun i => i != 0)
      none)).map ImageData.image_index = [1] := by
    simp [get_ndvi_data, process_all_ndvi_images, process_single_ndvi_image,
      response_images]
  have hlen : (response_images (get_ndvi_data [demoImage0, demoImage1] (fun i => i != 0)
      none)).length = 1 := by
    have := congrArg List.length h
    simpa using this
  refine ⟨h, ?_⟩
  rw [h, hlen]
  decide

/-- C2 (amended): for every candidate list and per-image success/failure
pattern, the returned images list is no longer than `summary.total_images`,
and the `image_index` values form a strictly increasing sublist of
0..total-1 — each surviving record keeps its position in the cloud-sorted
candidate list, with gaps exactly at failed units; when no unit fails they
are precisely 0..k-1 with no gaps, independent of completion order. -/
theorem C2_order_preserved (candidates : List ImageInfo) (unitOk : Nat → Bool)
    (areaResult : Option ℚ) :
    (response_images (get_ndvi_data candidates unitOk areaResult)).length ≤
        response_total (get_ndvi_data candidates unitOk areaResult) ∧
    List.Sublist
      ((response_images (get_ndvi_data candidates unitOk areaResult)).map
        ImageData.image_index) (List.range candidates.length) ∧
    ((∀ i, unitOk i = true) →
      (response_images (get_ndvi_data candidates unitOk areaResult)).map
          ImageData.image_index = List.range candidates.length) := by
  by_cases hc : candidates.length = 0
  · have hnil : candidates = [] := List.eq_nil_of_length_eq_zero hc
    subst hnil
    refine ⟨le_refl 0, ?_, fun _ => rfl⟩
    simp [get_ndvi_data, response_images]
  · have hok : get_ndvi_data candidates unitOk areaResult = Except.ok
        { summary := { total_images := candidates.length
                       images_processed :=
                         ((process_all_ndvi_images unitOk 0 candidates).filterMap
                           id).length }
          area_info := { area_value := area_value areaResult }
          images := (process_all_ndvi_images unitOk 0 candidates).filterMap id } := by
      unfold get_ndvi_data
      rw [if_neg hc]
    rw [hok]
    refine ⟨?_, ?_, fun hall => ?_⟩
    · simp only [response_images, response_total]
      calc ((process_all_ndvi_images unitOk 0 candidates).filterMap id).length
          ≤ (process_all_ndvi_images unitOk 0 candidates).length :=
            List.length_filterMap_le _ _
        _ = candidates.length := process_all_length unitOk candidates 0
    · simp only [response_images]
      rw [List.range_eq_range']
      exact process_all_indices_sublist unitOk candidates 0
    · simp only [response_images]
      rw [List.range_eq_range']
      exact process_all_indices_all_ok unitOk hall candidates 0

/-- C2 witness: with two candidates and no failures the indices are exactly
0, 1. -/
theorem C2_order_preserved_witness :
    (response_images (get_ndvi_data [demoImage0, demoImage1] (fun _ => true) none)).map
        ImageData.image_index = List.range 2 :=
  (C2_order_preserved [demoImage0, demoImage1] (fun _ => true) none).2.2 (fun _ => rfl)

/-- C3 counterexample: `batch_retrieve_statistics` called on the empty
collection returns `[]` but still issues its single blocking `getInfo`
resolve call — not zero network interactions as claimed. -/
theorem C3_counterexample :
    (batch_retrieve_statistics []).1 = [] ∧
    (batch_retrieve_statistics []).2 = 1 ∧
    (batch_retrieve_statistics []).2 ≠ 0 := by
  refine ⟨rfl, rfl, ?_⟩
  decide

/-- C3 (amended): `batch_retrieve_statistics` always issues exactly one
resolve call and returns one statistics record per feature (so `[]` for an
empty collection, but with one resolve call issued); the batched NDVI
operation never reaches the batch call with an empty candidate set — it
raises the no-images error first, with zero batch resolve calls issued. -/
theorem C3_empty_collection (outFail : Nat → Option String) (areaResult : Option ℚ) :
    (∀ stats_collection : List Feature,
        (batch_retrieve_statistics stats_collection).1 =
            stats_collection.map Feature.properties ∧
        (batch_retrieve_statistics stats_collection).2 = 1) ∧
    get_ndvi_data_batched [] outFail areaResult =
      (Except.error "No images found. Try increasing max_cloud_cover or extending date range.",
        0) := by
  refine ⟨fun sc => ⟨rfl, rfl⟩, rfl⟩

/-- C6 counterexample: in the batched pipeline, the output unit for image 0
raises while the unit for image 1 would succeed, and — because the
`gather_with_limit(*tasks, limit=10)` call does not request
`return_exceptions` — the whole request fails instead of dropping the one
record. -/
theorem C6_counterexample :
    demoOutFail 1 = none ∧
    (get_ndvi_data_batched [demoImage0, demoImage1] demoOutFail (some 1)).1 =
      Except.error "Earth Engine API error: malformed product id" := by
  exact ⟨rfl, rfl⟩

/-- C6 (amended): in the parallel path `get_ndvi_data`, whose per-image unit
`_process_single_ndvi_image` catches its own exceptions and returns None, any
pattern of per-image failures leaves the request successful,
`summary.images_processed` counts exactly the surviving records, and it
equals the length of the returned images list; in the batched path, by
contrast, a raising thumbnail/download unit aborts the whole request (see the
counterexample). -/
theorem C6_partial_failure (candidates : List ImageInfo) (unitOk : Nat → Bool)
    (areaResult : Option ℚ) (hne : candidates ≠ []) :
    ∃ resp, get_ndvi_data candidates unitOk areaResult = Except.ok resp ∧
      resp.summary.images_processed =
        ((List.range candidates.length).filter (fun i => unitOk i)).length ∧
      resp.summary.images_processed = resp.images.length := by
  have hc : ¬ candidates.length = 0 := by
    intro h
    exact hne (List.eq_nil_of_length_eq_zero h)
  refine ⟨{ summary := { total_images := candidates.length
                         images_processed :=
                           ((process_all_ndvi_images unitOk 0 candidates).filterMap
                             id).length }
            area_info := { area_value := area_value areaResult }
            images := (process_all_ndvi_images unitOk 0 candidates).filterMap id },
    ?_, ?_, rfl⟩
  · unfold get_ndvi_data
    rw [if_neg hc]
  · rw [List.range_eq_range']
    exact process_all_survivor_count unitOk candidates 0

/-- C6 witness: two candidates, unit 0 fails, unit 1 succeeds: the request
succeeds and exactly one record survives. -/
theorem C6_partial_failure_witness :
    ∃ resp, get_ndvi_data [demoImage0, demoImage1] (fun i => i != 0) none =
        Except.ok resp ∧
      resp.summary.images_processed =
        ((List.range 2).filter (fun i => i != 0)).length ∧
      resp.summary.images_processed = resp.images.length :=
  C6_partial_failure [demoImage0, demoImage1] (fun i => i != 0) none
    (List.cons_ne_nil _ _)

/-- C7 counterexample: with a negative limit, `range(0, len(coros), limit)`
visits no index, so `gather_with_limit` returns `[]` — zero results for two
input coroutines, not one result per coroutine. -/
theorem C7_counterexample :
    gather_with_limit ([Except.ok 1, Except.ok 2] : List (Except String Nat))
        (some (-1)) true = Except.ok [] ∧
    ([] : List (Except String Nat)).length ≠
      ([Except.ok 1, Except.ok 2] : List (Except String Nat)).length := by
  constructor
  · rfl
  · decide

/-- C7 (amended): for `limit = None` or any limit >= 1 (the claim fails for
limit <= 0), `gather_with_limit` returns exactly one result slot per input
coroutine in input order: when the limit is None or at least the task count
they run under a single gather, otherwise in consecutive batches of size
`limit` concatenated in input order; with `return_exceptions` a failing
task's exception occupies its own slot instead of aborting the siblings, and
without it an all-successful task list also yields one result per task in
order. -/
theorem C7_gather_with_limit {ε α : Type} (coros : List (Except ε α))
    (limit : Option Int) (hlim : limit = none ∨ ∃ l, limit = some l ∧ 1 ≤ l) :
    gather_with_limit coros limit true = Except.ok coros ∧
    (coros.all slot_ok = true → gather_with_limit coros limit false = Except.ok coros) := by
  rcases hlim with hnone | ⟨l, hsome, hl⟩
  · subst hnone
    constructor
    · simp [gather_with_limit, gather_true_eq]
    · intro hall
      simp [gather_with_limit, gather_false_of_all_ok coros hall]
  · subst hsome
    by_cases hge : l ≥ (coros.length : Int)
    · constructor
      · simp [gather_with_limit, hge, gather_true_eq]
      · intro hall
        simp [gather_with_limit, hge, gather_false_of_all_ok coros hall]
    · have hne0 : ¬ l = 0 := by omega
      have hnneg : ¬ l < 0 := by omega
      have hk : l.toNat ≠ 0 := by omega
      constructor
      · simp only [gather_with_limit, if_neg hge, if_neg hne0, if_neg hnneg]
        rw [gather_batches_true, to_batches_join l.toNat hk]
      · intro hall
        simp only [gather_with_limit, if_neg hge, if_neg hne0, if_neg hnneg]
        have hjoin := to_batches_join l.toNat hk coros
        rw [gather_batches_false_of_all_ok _ (by rw [hjoin]; exact hall), hjoin]

/-- C7 witness: limit 1 over two coroutines, one failing: the exception sits
in its own slot; and an all-successful pair passes through unchanged without
`return_exceptions`. -/
theorem C7_gather_with_limit_witness :
    gather_with_limit ([Except.ok 3, Except.error "x"] : List (Except String Nat))
        (some 1) true = Except.ok [Except.ok 3, Except.error "x"] ∧
    gather_with_limit ([Except.ok 5, Except.ok 7] : List (Except String Nat))
        (some 1) false = Except.ok [Except.ok 5, Except.ok 7] :=
  ⟨(C7_gather_with_limit [Except.ok 3, Except.error "x"] (some 1)
      (Or.inr ⟨1, rfl, le_refl 1⟩)).1,
   (C7_gather_with_limit [Except.ok 5, Except.ok 7] (some 1)
      (Or.inr ⟨1, rfl, le_refl 1⟩)).2 rfl⟩

/-- C10: in the batched NDVI pipeline the geodesic-area outcome never decides
success: the result for any area outcome equals the result for a successful
1-hectare area with only the reported `area_info.area.value` replaced (so an
area-call failure is caught and the response still produced); the reported
value is None when the call raised, and — the presence check being Python
truthiness — also None when the computed area is exactly 0. -/
theorem C10_area_truthiness (candidates : List ImageInfo)
    (outFail : Nat → Option String) (a : Option ℚ) :
    (get_ndvi_data_batched candidates outFail a).1 =
      Except.map (fun resp => { resp with area_info := { area_value := area_value a } })
        ((get_ndvi_data_batched candidates outFail (some 1)).1) ∧
    area_value none = none ∧
    area_value (some 0) = none := by
  refine ⟨?_, rfl, by norm_num [area_value]⟩
  unfold get_ndvi_data_batched
  by_cases hc : candidates.length = 0
  · simp [hc, Except.map]
  · simp only [hc, if_false]
    cases hgw : gather_with_limit (output_units outFail 0 candidates) (some 10) false with
    | error e => cases e <;> simp [Except.map]
    | ok slots => simp [Except.map]

end Agrisa
